import Mathlib

/-!
Shallow embedding of `backend/server.js` from the claude-pod-fly-v2 repository.

The server is an Express + WebSocket relay around a `DevPodManager` class whose
five methods shell out to the `devpod` CLI (via `child_process.exec`) or fall
back to a direct HTTP call to the Anthropic messages endpoint.  We embed:

* a small model of JavaScript values (`Json`), including `undefined`, with JS
  truthiness, property access (which throws a `TypeError` on `null`/
  `undefined`), and `ToString` coercion;
* the external world as an environment `Env` assigning outcomes to each
  subprocess command (`execAsync`), to `JSON.parse` on each string, and to each
  outbound HTTP POST; every operation returns its JS result value together
  with the trace of outbound calls it made;
* the five `DevPodManager` methods, the HTTP routes, and the WebSocket
  message/close handlers, including the `activeConnections` table.

Thrown JS exceptions are modelled as `Except.error msg`; the `try`/`catch`
wrappers of the source map the error message into the documented failure
values.  `TypeError` message texts are abbreviations of the engine wording
(the source never inspects them).  WebSocket sends are recorded as the
pre-`JSON.stringify` object together with the socket that `ws.send` targets.
JS `Map` keys and `===` compare objects and arrays by reference; since every
incoming value is freshly produced by `JSON.parse`, two object values are
never the same reference, which `jsKeyEq` models by making non-primitive
values compare unequal.
-/

namespace ClaudePod

/-- The single-quote character, written via its code point. -/
def squote : Char := Char.ofNat 39

/-- The backslash character, written via its code point. -/
def bslash : Char := Char.ofNat 92

/-- JavaScript values as far as the server manipulates them: JSON values plus
`undefined` (distinct from `null`). -/
inductive Json where
  | null
  | undef
  | bool (b : Bool)
  | num (n : Int)
  | str (s : String)
  | arr (elems : List Json)
  | obj (fields : List (String × Json))

/-- JS truthiness of a value (`if (v)`). -/
def jsTruthy : Json → Bool
  | .null => false
  | .undef => false
  | .bool b => b
  | .num n => n != 0
  | .str s => s != ""
  | .arr _ => true
  | .obj _ => true

/-- JS `a || b`. -/
def jsOr (a b : Json) : Json := if jsTruthy a then a else b

/-- JS strict equality `v === s` against a string literal. -/
def Json.isStr : Json → String → Bool
  | .str t, s => t == s
  | _, _ => false

/-- Key equality used by `Map.set`/`Map.delete` (SameValueZero): primitives by
value; objects and arrays by reference, and every value entering the server is
a fresh `JSON.parse` result, so two non-primitive keys are never equal. -/
def jsKeyEq : Json → Json → Bool
  | .null, .null => true
  | .undef, .undef => true
  | .bool a, .bool b => a == b
  | .num a, .num b => a == b
  | .str a, .str b => a == b
  | _, _ => false

/-- Decimal digit character for `d < 10`. -/
def digitChar (d : Nat) : Char := Char.ofNat (48 + d)

/-- Decimal digits of `n` (most significant first), with explicit fuel so the
definition is structural; `fuel ≥ n` suffices. -/
def decDigitsAux : Nat → Nat → List Char
  | 0, _ => []
  | _ + 1, 0 => []
  | fuel + 1, n + 1 => decDigitsAux fuel ((n + 1) / 10) ++ [digitChar ((n + 1) % 10)]

/-- Decimal rendering of a natural number, as JS `ToString` produces for a
non-negative integer. -/
def natToDec (n : Nat) : String :=
  if n = 0 then "0" else String.mk (decDigitsAux n n)

/-- Read a decimal digit string back as a number (left fold). -/
def ofDec (cs : List Char) : Nat :=
  cs.foldl (fun acc c => 10 * acc + (c.toNat - 48)) 0

mutual

/-- JS `ToString` coercion, as a template literal applies to an interpolated
value (arrays join their elements with commas, `null`/`undefined` elements
becoming empty). -/
def jsToString : Json → String
  | .null => "null"
  | .undef => "undefined"
  | .bool true => "true"
  | .bool false => "false"
  | .num n => if n < 0 then "-" ++ natToDec (-n).toNat else natToDec n.toNat
  | .str s => s
  | .arr xs => jsToStringList xs
  | .obj _ => "[object Object]"
termination_by structural v => v

/-- Comma join used by array `ToString`; `null`/`undefined` elements print as
empty. -/
def jsToStringList : List Json → String
  | [] => ""
  | [.null] => ""
  | [.undef] => ""
  | [x] => jsToString x
  | .null :: y :: xs => "," ++ jsToStringList (y :: xs)
  | .undef :: y :: xs => "," ++ jsToStringList (y :: xs)
  | x :: y :: xs => jsToString x ++ "," ++ jsToStringList (y :: xs)
termination_by structural l => l

end

/-- JS property access `v.k`: a `TypeError` is thrown on `null`/`undefined`,
an object yields the field (or `undefined`), other primitives yield
`undefined` for the properties the server reads. -/
def Json.getProp : Json → String → Except String Json
  | .null, k => .error ("TypeError: cannot read properties of null, reading " ++ k)
  | .undef, k => .error ("TypeError: cannot read properties of undefined, reading " ++ k)
  | .obj fs, k => .ok ((fs.lookup k).getD .undef)
  | _, _ => .ok (.undef)

/-- JS index access `v[i]`: arrays yield the element (or `undefined` out of
range), strings yield the one-character string, objects look the decimal key
up, `null`/`undefined` throw. -/
def Json.getIdx : Json → Nat → Except String Json
  | .null, _ => .error "TypeError: cannot read properties of null, reading index"
  | .undef, _ => .error "TypeError: cannot read properties of undefined, reading index"
  | .arr xs, i => .ok ((xs.get? i).getD .undef)
  | .str s, i => .ok (((s.data.get? i).map (fun c => Json.str (String.mk [c]))).getD .undef)
  | .obj fs, i => .ok ((fs.lookup (natToDec i)).getD .undef)
  | _, _ => .ok (.undef)

/-- JS `Map.set`: replace the value at an existing key in place, else append
(JS insertion-order semantics), with key equality `eq`. -/
def mapSetBy {α β : Type} (eq : α → α → Bool) : List (α × β) → α → β → List (α × β)
  | [], k, v => [(k, v)]
  | (k0, v0) :: rest, k, v =>
    if eq k0 k then (k0, v) :: rest else (k0, v0) :: mapSetBy eq rest k v

/-- JS `Map.delete`: remove the entry whose key equals `k` under `eq`. -/
def mapDeleteBy {α β : Type} (eq : α → α → Bool) : List (α × β) → α → List (α × β)
  | [], _ => []
  | (k0, v0) :: rest, k =>
    if eq k0 k then rest else (k0, v0) :: mapDeleteBy eq rest k

/-- JS `Map.get`-style lookup under key equality `eq`. -/
def lookupBy {α β : Type} (eq : α → α → Bool) : List (α × β) → α → Option β
  | [], _ => none
  | (k0, v0) :: rest, k => if eq k0 k then some v0 else lookupBy eq rest k

/-- Set a key in an object-literal accumulator, replacing in place if present
(JS key-order semantics). -/
def objSet : List (String × Json) → String → Json → List (String × Json)
  | [], k, v => [(k, v)]
  | (k0, v0) :: r, k, v =>
    if k0 == k then (k0, v) :: r else (k0, v0) :: objSet r k v

/-- Object-literal assembly with later duplicate keys overriding earlier ones
(used for `{type: ..., ...result, timestamp: ...}`). -/
def objAssign : List (String × Json) → List (String × Json) → List (String × Json)
  | acc, [] => acc
  | acc, (k, v) :: rest => objAssign (objSet acc k v) rest

/-- Fields contributed by JS object spread `{...v}`: objects give their
fields, strings and arrays give index-keyed entries, primitives give none. -/
def spreadFields : Json → List (String × Json)
  | .obj fs => fs
  | .str s => ((List.range s.length).zip (s.data.map (fun c => Json.str (String.mk [c])))).map
      (fun p => (natToDec p.1, p.2))
  | .arr xs => ((List.range xs.length).zip xs).map (fun p => (natToDec p.1, p.2))
  | _ => []

/-- An outbound call made by the server: a `child_process.exec` subprocess
invocation, an `axios.post` HTTP request, or the GitHub SDK
`repos.createUsingTemplate` call. -/
inductive ExtCall where
  | exec (command : String)
  | http (url : String)
  | octokit (repoName : String)
deriving Repr, DecidableEq

/-- The external world as the server observes it: the outcome of each
subprocess command, of `JSON.parse` on each string (the parsed value or the
thrown `SyntaxError` message — `JSON.parse` itself is deterministic and is
abstracted here), of each outbound HTTP POST (the `response.data` or the
thrown error message), of the GitHub template-repository creation
(`clone_url` and `html_url`, or the thrown error message), and the clock. -/
structure Env where
  exec : String → Except String String
  parse : String → Except String Json
  httpPost : String → Json → Except String Json
  octokitCreate : String → String → Except String (String × String)
  now : String
  nowMs : Nat

/-- Whitespace as `String.prototype.trim` strips it (the characters that can
occur in `which` output). -/
def isWsChar (c : Char) : Bool := c = ' ' || c = '\t' || c = '\n' || c = '\r'

/-- JS `s.trim()`: drop whitespace from both ends. -/
def jsTrim (s : String) : String :=
  String.mk (((s.data.dropWhile isWsChar).reverse.dropWhile isWsChar).reverse)

/-- Truthiness of `devpodCheck && devpodCheck.stdout.trim()` where
`devpodCheck = await execAsync("which devpod").catch(() => null)`. -/
def devpodAvailable (env : Env) : Bool :=
  match env.exec "which devpod" with
  | .ok out => jsTrim out != ""
  | .error _ => false

/-- JS `message.replace(pat-regex-global, repl)` for a one-character pattern:
scan left to right, emitting `repl` at each occurrence. -/
def replaceAllChar (pat : Char) (repl : List Char) : List Char → List Char
  | [] => []
  | c :: cs => (if c = pat then repl else [c]) ++ replaceAllChar pat repl cs

/-- Model of `const escapedMessage = message.replace(/single-quote/g, quote-backslash-quote-quote)`. -/
def escapedOf (m : String) : String :=
  String.mk (replaceAllChar squote [squote, bslash, squote, squote] m.data)

/-- The `devpod ssh` command template of `executeInWorkspace`: the workspace
id is interpolated by `ToString` with no escaping, the escaped message sits
between single quotes. -/
def sshCommand (workspaceId : Json) (m : String) : String :=
  "devpod ssh " ++ jsToString workspaceId ++
    " --command \"cd /workspace && python3 .devcontainer/claude-handler.py " ++
    String.mk [squote] ++ escapedOf m ++ String.mk [squote] ++ "\""

/-- URL of the Anthropic messages endpoint used by the fallback branch. -/
def anthropicUrl : String := "https://api.anthropic.com/v1/messages"

/-- The fixed prompt template embedding the user message (whitespace as in the
source template literal). -/
def promptContent (message : Json) : String :=
  "You are an AI assistant helping build a React application. The user said: \"" ++
    jsToString message ++ "\". \n            \n            Provide helpful guidance for building their React app. Keep responses concise and practical."

/-- The request body posted to the Anthropic endpoint. -/
def anthropicBody (message : Json) : Json :=
  Json.obj [("model", .str "claude-3-5-sonnet-20241022"), ("max_tokens", .num 4000),
    ("messages", .arr [Json.obj [("role", .str "user"),
      ("content", .str (promptContent message))]])]

/-- The fallback branch of `executeInWorkspace`: one POST to the Anthropic
endpoint, then `response.data.content[0].text` is extracted. -/
def directApi (env : Env) (message : Json) : Except String Json × List ExtCall :=
  (match env.httpPost anthropicUrl (anthropicBody message) with
   | .error e => .error e
   | .ok data =>
     match data.getProp "content" with
     | .error e => .error e
     | .ok content =>
       match content.getIdx 0 with
       | .error e => .error e
       | .ok first =>
         match first.getProp "text" with
         | .error e => .error e
         | .ok text =>
           .ok (Json.obj [("success", .bool true), ("response", text),
             ("context_used", .bool true), ("workspace_updated", .bool true),
             ("mode", .str "direct-api")]),
   [ExtCall.http anthropicUrl])

/-- Body of `DevPodManager.executeInWorkspace` inside its `try`: the returned
value or the thrown error message, with the trace of outbound calls (the
availability probe, then the chosen strategy call).  `message.replace` throws
a `TypeError` when the message is not a string, before any strategy call. -/
def executeBody (env : Env) (workspaceId message : Json) :
    Except String Json × List ExtCall :=
  if devpodAvailable env then
    match message with
    | .str m =>
      let command := sshCommand workspaceId m
      (match env.exec command with
       | .ok stdout => env.parse stdout
       | .error e => .error e,
       [ExtCall.exec "which devpod", ExtCall.exec command])
    | _ =>
      (.error "TypeError: message.replace is not a function",
       [ExtCall.exec "which devpod"])
  else
    let (r, calls) := directApi env message
    (r, ExtCall.exec "which devpod" :: calls)

/-- Method `DevPodManager.executeInWorkspace`: the `catch` maps a thrown error to the
fixed failure value. -/
def executeInWorkspace (env : Env) (workspaceId message : Json) :
    Json × List ExtCall :=
  let (r, calls) := executeBody env workspaceId message
  (match r with
   | .ok v => v
   | .error e => Json.obj [("success", .bool false), ("error", .str e),
       ("response", .str "I encountered an error processing your request.")],
   calls)

/-- Body of `DevPodManager.createWorkspace` inside its `try`. -/
def createBody (env : Env) (workspaceId repoUrl : String) :
    Except String Json × List ExtCall :=
  if devpodAvailable env then
    let command := "devpod up " ++ repoUrl ++ " --id " ++ workspaceId ++ " --provider docker"
    (match env.exec command with
     | .ok stdout => .ok (Json.obj [("success", .bool true),
         ("workspaceId", .str workspaceId), ("status", .str "created"),
         ("output", .str stdout), ("mode", .str "devpod")])
     | .error e => .error e,
     [ExtCall.exec "which devpod", ExtCall.exec command])
  else
    (.ok (Json.obj [("success", .bool true), ("workspaceId", .str workspaceId),
       ("status", .str "created"),
       ("output", .str "Workspace created in mock mode (DevPod not available)"),
       ("mode", .str "mock")]),
     [ExtCall.exec "which devpod"])

/-- Method `DevPodManager.createWorkspace` with its `catch`. -/
def createWorkspace (env : Env) (workspaceId repoUrl : String) : Json × List ExtCall :=
  let (r, calls) := createBody env workspaceId repoUrl
  (match r with
   | .ok v => v
   | .error e => Json.obj [("success", .bool false), ("error", .str e)],
   calls)

/-- Model of `workspaces.find(w => w.id === workspaceId)`: first element whose `id`
field strictly equals the id string; the property access inside the callback
can throw. -/
def findById : List Json → String → Except String (Option Json)
  | [], _ => .ok none
  | w :: ws, wid =>
    match w.getProp "id" with
    | .error e => .error e
    | .ok idv => if idv.isStr wid then .ok (some w) else findById ws wid

/-- Body of `DevPodManager.getWorkspaceStatus` inside its `try`:
`devpod list --output json`, `JSON.parse`, `find`, then
`workspace || { status: "not_found" }` (`.find` on a non-array parse result
throws a `TypeError`). -/
def statusBody (env : Env) (workspaceId : String) :
    Except String Json × List ExtCall :=
  (match env.exec "devpod list --output json" with
   | .error e => .error e
   | .ok stdout =>
     match env.parse stdout with
     | .error e => .error e
     | .ok (.arr xs) =>
       match findById xs workspaceId with
       | .error e => .error e
       | .ok found => .ok (jsOr (found.getD .undef) (Json.obj [("status", .str "not_found")]))
     | .ok _ => .error "TypeError: workspaces.find is not a function",
   [ExtCall.exec "devpod list --output json"])

/-- Method `DevPodManager.getWorkspaceStatus` with its `catch` (which returns
`{status: "error", error}`). -/
def getWorkspaceStatus (env : Env) (workspaceId : String) : Json × List ExtCall :=
  let (r, calls) := statusBody env workspaceId
  (match r with
   | .ok v => v
   | .error e => Json.obj [("status", .str "error"), ("error", .str e)],
   calls)

/-- Body of `DevPodManager.stopWorkspace` inside its `try`. -/
def stopBody (env : Env) (workspaceId : String) : Except String Json × List ExtCall :=
  (match env.exec ("devpod stop " ++ workspaceId) with
   | .ok _ => .ok (Json.obj [("success", .bool true)])
   | .error e => .error e,
   [ExtCall.exec ("devpod stop " ++ workspaceId)])

/-- Method `DevPodManager.stopWorkspace` with its `catch`. -/
def stopWorkspace (env : Env) (workspaceId : String) : Json × List ExtCall :=
  let (r, calls) := stopBody env workspaceId
  (match r with
   | .ok v => v
   | .error e => Json.obj [("success", .bool false), ("error", .str e)],
   calls)

/-- Body of `DevPodManager.deleteWorkspace` inside its `try`. -/
def deleteBody (env : Env) (workspaceId : String) : Except String Json × List ExtCall :=
  (match env.exec ("devpod delete " ++ workspaceId ++ " --force") with
   | .ok _ => .ok (Json.obj [("success", .bool true)])
   | .error e => .error e,
   [ExtCall.exec ("devpod delete " ++ workspaceId ++ " --force")])

/-- Method `DevPodManager.deleteWorkspace` with its `catch`. -/
def deleteWorkspace (env : Env) (workspaceId : String) : Json × List ExtCall :=
  let (r, calls) := deleteBody env workspaceId
  (match r with
   | .ok v => v
   | .error e => Json.obj [("success", .bool false), ("error", .str e)],
   calls)

/-- Route `POST /api/workspaces/:workspaceId/chat`: HTTP status, JSON body sent via
`res`, and the outbound-call trace. -/
def chatRoute (env : Env) (workspaceId : String) (body : Json) :
    Nat × Json × List ExtCall :=
  match body.getProp "message" with
  | .error e =>
    (500, Json.obj [("success", .bool false), ("error", .str e),
      ("response", .str "I encountered an error. Please try again.")], [])
  | .ok message =>
    if jsTruthy message then
      let (result, calls) := executeInWorkspace env (Json.str workspaceId) message
      (200, result, calls)
    else
      (400, Json.obj [("success", .bool false),
        ("error", .str "message is required")], [])

/-- The generated workspace identifier:
`workspace-(userId)-(Date.now())` via template literal. -/
def genWorkspaceId (userId : Json) (nowMs : Nat) : String :=
  "workspace-" ++ jsToString userId ++ "-" ++ natToDec nowMs

/-- Route `POST /api/workspaces/create`: required-field check, id generation, GitHub
template-repository creation, workspace creation, then the success payload;
any thrown error (including the explicit `throw` on `!workspace.success`)
lands in the 500 handler. -/
def createRoute (env : Env) (body : Json) : Nat × Json × List ExtCall :=
  match body.getProp "userId" with
  | .error e => (500, Json.obj [("success", .bool false), ("error", .str e)], [])
  | .ok userId =>
    match body.getProp "projectName" with
    | .error e => (500, Json.obj [("success", .bool false), ("error", .str e)], [])
    | .ok projectName =>
      if jsTruthy userId && jsTruthy projectName then
        let workspaceId := genWorkspaceId userId env.nowMs
        match env.octokitCreate workspaceId
            ("AI Development Workspace: " ++ jsToString projectName) with
        | .error e =>
          (500, Json.obj [("success", .bool false), ("error", .str e)],
           [ExtCall.octokit workspaceId])
        | .ok (cloneUrl, htmlUrl) =>
          let (workspace, calls) := createWorkspace env workspaceId cloneUrl
          let trace := ExtCall.octokit workspaceId :: calls
          match workspace.getProp "success" with
          | .error e =>
            (500, Json.obj [("success", .bool false), ("error", .str e)], trace)
          | .ok succ =>
            if jsTruthy succ then
              (200, Json.obj [("success", .bool true),
                ("workspaceId", .str workspaceId),
                ("repositoryUrl", .str htmlUrl), ("cloneUrl", .str cloneUrl),
                ("workspace", workspace)], trace)
            else
              match workspace.getProp "error" with
              | .error e =>
                (500, Json.obj [("success", .bool false), ("error", .str e)], trace)
              | .ok errv =>
                (500, Json.obj [("success", .bool false),
                  ("error", .str (jsToString errv))], trace)
      else
        (400, Json.obj [("success", .bool false),
          ("error", .str "userId and projectName are required")], [])

/-- A message sent over a socket: target socket id and the pre-stringify
value. -/
abbrev Send := Nat × Json

/-- State of the relay: the `activeConnections` table (keyed by the JS value
supplied in `init`) and the `connectionWorkspaceId` closure
variable. -/
structure RelayState where
  table : List (Json × Nat)
  cwids : List (Nat × Json)

/-- The relay before any connection. -/
def initRelay : RelayState := ⟨[], []⟩

/-- Value of `connectionWorkspaceId` for socket `s` (`null` before any `init`). -/
def cwidOf (st : RelayState) (s : Nat) : Json :=
  (lookupBy (fun a b => a == b) st.cwids s).getD .null

/-- Destructuring `const (type, workspaceId, message) = JSON.parse(data)` (braces written as parentheses here). -/
def destruct3 (v : Json) : Except String (Json × Json × Json) :=
  match v.getProp "type" with
  | .error e => .error e
  | .ok ty =>
    match v.getProp "workspaceId" with
    | .error e => .error e
    | .ok wid =>
      match v.getProp "message" with
      | .error e => .error e
      | .ok msg => .ok (ty, wid, msg)

/-- The `{ type: "response", ...result, timestamp }` object: the spread of the
execution result overrides the `type` field when the result carries one. -/
def responseMsg (result : Json) (ts : String) : Json :=
  Json.obj (objAssign (objAssign [("type", Json.str "response")] (spreadFields result))
    [("timestamp", Json.str ts)])

/-- The `ws.on("message")` handler for `data` arriving on socket `s`: the new
relay state, the messages sent in order, and the outbound calls; any throw in
the `try` (parse failure or destructuring `null`) sends a `type: "error"`
message. -/
def handleMessage (env : Env) (st : RelayState) (s : Nat) (data : String) :
    RelayState × List Send × List ExtCall :=
  match env.parse data with
  | .error e => (st, [(s, Json.obj [("type", .str "error"), ("error", .str e)])], [])
  | .ok v =>
    match destruct3 v with
    | .error e => (st, [(s, Json.obj [("type", .str "error"), ("error", .str e)])], [])
    | .ok (ty, wid, msg) =>
      let (st1, sends1) :=
        if ty.isStr "init" then
          ({ table := mapSetBy jsKeyEq st.table wid s,
             cwids := mapSetBy (fun a b => a == b) st.cwids s wid },
           [(s, Json.obj [("type", .str "connected"), ("workspaceId", wid)])])
        else (st, [])
      if ty.isStr "chat" && jsTruthy wid && jsTruthy msg then
        let (result, calls) := executeInWorkspace env wid msg
        (st1,
         sends1 ++
           [(s, Json.obj [("type", .str "typing"), ("status", .bool true)]),
            (s, responseMsg result env.now),
            (s, Json.obj [("type", .str "typing"), ("status", .bool false)])],
         calls)
      else (st1, sends1, [])

/-- The `ws.on("close")` handler for socket `s`: delete the most recent init
key if truthy; the closure (and with it `connectionWorkspaceId`) dies with the
socket. -/
def handleClose (st : RelayState) (s : Nat) : RelayState :=
  let w := cwidOf st s
  if jsTruthy w then
    { table := mapDeleteBy jsKeyEq st.table w,
      cwids := mapDeleteBy (fun a b => a == b) st.cwids s }
  else
    { st with cwids := mapDeleteBy (fun a b => a == b) st.cwids s }

/-- An observable WebSocket event: a client message on a socket, or a socket
closing. -/
inductive WsEvent where
  | msg (s : Nat) (data : String)
  | close (s : Nat)

/-- State transition of the relay on one event. -/
def stepEvent (env : Env) (st : RelayState) : WsEvent → RelayState
  | .msg s data => (handleMessage env st s data).1
  | .close s => handleClose st s

/-- Relay state reached from the initial state by a sequence of events. -/
def runEvents (env : Env) (events : List WsEvent) : RelayState :=
  events.foldl (stepEvent env) initRelay

/-- Number of subprocess invocations in an outbound-call trace. -/
def countExec (calls : List ExtCall) : Nat :=
  (calls.filter fun c => match c with | .exec _ => true | _ => false).length

/-- Number of outbound HTTP calls in an outbound-call trace. -/
def countHttp (calls : List ExtCall) : Nat :=
  (calls.filter fun c => match c with | .http _ => true | _ => false).length

/-- Invariant of the `activeConnections` table: no two entries have equal
keys, so each workspace identifier maps to at most one socket. -/
def KeysOk (t : List (Json × Nat)) : Prop :=
  t.Pairwise fun a b => jsKeyEq a.1 b.1 = false

/-- Field `type` of a sent message object. -/
def msgTypeOf : Json → Option Json
  | .obj fs => fs.lookup "type"
  | _ => none

/-- Identifiers generated for a sequence of creation requests, each request
given by its userId and its `Date.now()` reading. -/
def genIds (requests : List (String × Nat)) : List String :=
  requests.map fun r => genWorkspaceId (.str r.1) r.2

/-- Concrete scenario: `which devpod` resolves (DevPod mode) and every other
external call fails with message `boom` (`bad json`, `http down`, `gh down`
for the parser, HTTP and GitHub calls). -/
def envDevpodBoom : Env where
  exec := fun c => if c = "which devpod" then .ok "/usr/bin/devpod" else .error "boom"
  parse := fun _ => .error "bad json"
  httpPost := fun _ _ => .error "http down"
  octokitCreate := fun _ _ => .error "gh down"
  now := "2025-01-01T00:00:00.000Z"
  nowMs := 0

/-- Concrete scenario: DevPod absent (the probe rejects), the HTTP fallback
fails with `http down`, and the socket data strings `init1`, `init2`,
`chat1`, `chatEmpty` parse to the corresponding client messages while
anything else fails to parse. -/
def envWs : Env where
  exec := fun _ => .error "enoent"
  parse := fun d =>
    if d = "init1" then
      .ok (Json.obj [("type", .str "init"), ("workspaceId", .str "w1")])
    else if d = "init2" then
      .ok (Json.obj [("type", .str "init"), ("workspaceId", .str "w2")])
    else if d = "chat1" then
      .ok (Json.obj [("type", .str "chat"), ("workspaceId", .str "w1"),
        ("message", .str "hello")])
    else if d = "chatEmpty" then
      .ok (Json.obj [("type", .str "chat"), ("workspaceId", .str "w1"),
        ("message", .str "")])
    else .error "bad json"
  httpPost := fun _ _ => .error "http down"
  octokitCreate := fun _ _ => .error "gh down"
  now := "2025-01-01T00:00:00.000Z"
  nowMs := 0

end ClaudePod

namespace ClaudePod

/-- Symmetry of the SameValueZero key equality (restricted to `true`). -/
theorem jsKeyEq_symmTrue {a b : Json} (h : jsKeyEq a b = true) : jsKeyEq b a = true := by
  cases a <;> cases b <;> simp_all [jsKeyEq]

/-- Transitivity of the SameValueZero key equality. -/
theorem jsKeyEq_trans {a b c : Json} (h1 : jsKeyEq a b = true) (h2 : jsKeyEq b c = true) :
    jsKeyEq a c = true := by
  cases a <;> cases b <;> cases c <;> simp_all [jsKeyEq]

/-- Every key of `mapSetBy eq t k v` is `k` or a key of `t`. -/
theorem mem_mapSetBy {α β : Type} (eq : α → α → Bool) (k : α) (v : β) :
    ∀ (t : List (α × β)) (p : α × β),
      p ∈ mapSetBy eq t k v → p.1 = k ∨ p.1 ∈ t.map Prod.fst := by
  intro t
  induction t with
  | nil =>
    intro p hp
    simp [mapSetBy] at hp
    subst hp
    simp
  | cons hd tl ih =>
    intro p hp
    rcases hd with ⟨k0, v0⟩
    simp only [mapSetBy] at hp
    by_cases h : eq k0 k
    · rw [if_pos h] at hp
      rcases List.mem_cons.mp hp with h1 | h1
      · right; rw [h1]; simp
      · right; simp only [List.map_cons, List.mem_cons]; right
        exact List.mem_map_of_mem Prod.fst h1
    · rw [if_neg h] at hp
      rcases List.mem_cons.mp hp with h1 | h1
      · right; rw [h1]; simp
      · rcases ih p h1 with h2 | h2
        · left; exact h2
        · right; simp only [List.map_cons, List.mem_cons]; right; exact h2

/-- A `Map.set` preserves the distinct-keys invariant of the table. -/
theorem keysOk_mapSetBy (k : Json) (v : Nat) {t : List (Json × Nat)} (h : KeysOk t) :
    KeysOk (mapSetBy jsKeyEq t k v) := by
  induction t with
  | nil => simp [mapSetBy, KeysOk]
  | cons hd tl ih =>
    rcases hd with ⟨k0, v0⟩
    rcases List.pairwise_cons.mp h with ⟨hhd, htl⟩
    by_cases hk : jsKeyEq k0 k
    · simp only [mapSetBy, if_pos hk]
      exact List.pairwise_cons.mpr ⟨fun b hb => hhd b hb, htl⟩
    · simp only [mapSetBy, if_neg hk]
      refine List.pairwise_cons.mpr ⟨?_, ih htl⟩
      intro p hp
      rcases mem_mapSetBy jsKeyEq k v tl p hp with h1 | h1
      · rw [h1]; exact Bool.eq_false_iff.mpr hk
      · rcases List.mem_map.mp h1 with ⟨q, hq, hq1⟩
        rw [← hq1]; exact hhd q hq

/-- Entries surviving a `Map.delete` were in the original table. -/
theorem mem_mapDeleteBy {α β : Type} (eq : α → α → Bool) (k : α) :
    ∀ (t : List (α × β)) (p : α × β), p ∈ mapDeleteBy eq t k → p ∈ t := by
  intro t
  induction t with
  | nil => intro p hp; simp [mapDeleteBy] at hp
  | cons hd tl ih =>
    intro p hp
    rcases hd with ⟨k0, v0⟩
    simp only [mapDeleteBy] at hp
    by_cases h : eq k0 k
    · rw [if_pos h] at hp; exact List.mem_cons_of_mem _ hp
    · rw [if_neg h] at hp
      rcases List.mem_cons.mp hp with h1 | h1
      · rw [h1]; exact List.mem_cons_self _ _
      · exact List.mem_cons_of_mem _ (ih p h1)

/-- A `Map.delete` preserves the distinct-keys invariant of the table. -/
theorem keysOk_mapDeleteBy (k : Json) {t : List (Json × Nat)} (h : KeysOk t) :
    KeysOk (mapDeleteBy jsKeyEq t k) := by
  induction t with
  | nil => simp [mapDeleteBy, KeysOk]
  | cons hd tl ih =>
    rcases hd with ⟨k0, v0⟩
    rcases List.pairwise_cons.mp h with ⟨hhd, htl⟩
    by_cases hk : jsKeyEq k0 k
    · simp only [mapDeleteBy, if_pos hk]; exact htl
    · simp only [mapDeleteBy, if_neg hk]
      refine List.pairwise_cons.mpr ⟨?_, ih htl⟩
      intro p hp
      exact hhd p (mem_mapDeleteBy jsKeyEq k tl p hp)

/-- A lookup misses when no key of the table matches. -/
theorem lookupBy_eq_none {α β : Type} (eq : α → α → Bool) (k : α) :
    ∀ (t : List (α × β)), (∀ p ∈ t, eq p.1 k = false) → lookupBy eq t k = none := by
  intro t
  induction t with
  | nil => intro _; rfl
  | cons hd tl ih =>
    intro h
    rcases hd with ⟨k0, v0⟩
    have h0 : eq k0 k = false := h (k0, v0) (List.mem_cons_self _ _)
    simp only [lookupBy, h0]
    simp only [Bool.false_eq_true, if_false]
    exact ih fun p hp => h p (List.mem_cons_of_mem _ hp)

/-- On a table with distinct keys, deleting a key makes lookups of it miss. -/
theorem lookupBy_mapDeleteBy (w : Json) {t : List (Json × Nat)} (h : KeysOk t) :
    lookupBy jsKeyEq (mapDeleteBy jsKeyEq t w) w = none := by
  induction t with
  | nil => rfl
  | cons hd tl ih =>
    rcases hd with ⟨k0, v0⟩
    rcases List.pairwise_cons.mp h with ⟨hhd, htl⟩
    by_cases hk : jsKeyEq k0 w
    · simp only [mapDeleteBy, if_pos hk]
      refine lookupBy_eq_none jsKeyEq w tl ?_
      intro p hp
      by_contra hc
      have hpw : jsKeyEq p.1 w = true := by
        cases hpv : jsKeyEq p.1 w
        · exact absurd hpv hc
        · rfl
      have : jsKeyEq k0 p.1 = true :=
        jsKeyEq_symmTrue (jsKeyEq_trans hpw (jsKeyEq_symmTrue hk))
      have := hhd p hp
      simp_all
    · simp only [mapDeleteBy, if_neg hk]
      have hk0 : jsKeyEq k0 w = false := Bool.eq_false_iff.mpr hk
      simp only [lookupBy, hk0]
      simp only [Bool.false_eq_true, if_false]
      exact ih htl

/-- One message either leaves the connection table unchanged or performs a
single `Map.set` with the socket as value. -/
theorem table_handleMessage (env : Env) (st : RelayState) (s : Nat) (data : String) :
    (handleMessage env st s data).1.table = st.table ∨
    ∃ w, (handleMessage env st s data).1.table = mapSetBy jsKeyEq st.table w s := by
  cases hp : env.parse data with
  | error e => left; simp only [handleMessage, hp]
  | ok v =>
    cases hd : destruct3 v with
    | error e => left; simp only [handleMessage, hp, hd]
    | ok triple =>
      rcases triple with ⟨ty, wid, msg⟩
      by_cases hi : ty.isStr "init" = true
      · right
        refine ⟨wid, ?_⟩
        simp only [handleMessage, hp, hd, hi]
        split <;> rfl
      · left
        simp only [handleMessage, hp, hd, hi]
        split <;> rfl

/-- Each relay event preserves the distinct-keys invariant. -/
theorem keysOk_step (env : Env) (st : RelayState) (e : WsEvent) (h : KeysOk st.table) :
    KeysOk (stepEvent env st e).table := by
  cases e with
  | msg s data =>
    rcases table_handleMessage env st s data with h1 | ⟨w, h1⟩
    · simp only [stepEvent]; rw [h1]; exact h
    · simp only [stepEvent]; rw [h1]; exact keysOk_mapSetBy w s h
  | close s =>
    simp only [stepEvent, handleClose]
    by_cases ht : jsTruthy (cwidOf st s) = true
    · simp only [ht, if_true]
      exact keysOk_mapDeleteBy _ h
    · simp only [ht]
      simp only [Bool.false_eq_true, if_false]
      exact h

/-- Every reachable relay state has a table with distinct keys. -/
theorem keysOk_runEvents (env : Env) (events : List WsEvent) :
    KeysOk (runEvents env events).table := by
  suffices h : ∀ st : RelayState, KeysOk st.table →
      KeysOk ((events.foldl (stepEvent env) st)).table by
    exact h initRelay (by simp [initRelay, KeysOk])
  induction events with
  | nil => intro st h; exact h
  | cons e es ih => intro st h; exact ih _ (keysOk_step env st e h)

/-- Every message the handler emits is sent on the socket the incoming
message arrived on. -/
theorem sends_target (env : Env) (st : RelayState) (s : Nat) (data : String) :
    ∀ p ∈ (handleMessage env st s data).2.1, p.1 = s := by
  intro p hp
  cases hJ : env.parse data with
  | error e =>
    simp only [handleMessage, hJ, List.mem_singleton] at hp
    rw [hp]
  | ok v =>
    cases hd : destruct3 v with
    | error e =>
      simp only [handleMessage, hJ, hd, List.mem_singleton] at hp
      rw [hp]
    | ok triple =>
      rcases triple with ⟨ty, wid, msg⟩
      by_cases hi : ty.isStr "init" = true
      · by_cases hc : (ty.isStr "chat" && jsTruthy wid && jsTruthy msg) = true
        · simp [handleMessage, hJ, hd, hi, hc] at hp
          rcases hp with h | h | h | h <;> simp [h]
        · simp [handleMessage, hJ, hd, hi, hc] at hp
          simp [hp]
      · by_cases hc : (ty.isStr "chat" && jsTruthy wid && jsTruthy msg) = true
        · simp [handleMessage, hJ, hd, hi, hc] at hp
          rcases hp with h | h | h <;> simp [h]
        · simp [handleMessage, hJ, hd, hi, hc] at hp

/-- Setting a key leaves lookups of other keys unchanged. -/
theorem lookup_objSet_ne (k2 k : String) (hne : k2 ≠ k) (v : Json) :
    ∀ fs : List (String × Json), (objSet fs k v).lookup k2 = fs.lookup k2 := by
  intro fs
  induction fs with
  | nil =>
    have h0 : (k2 == k) = false := by simpa using hne
    simp [objSet, List.lookup, h0]
  | cons hd tl ih =>
    rcases hd with ⟨k0, v0⟩
    by_cases h : (k0 == k) = true
    · have hk : k0 = k := by simpa using h
      subst hk
      have h2 : (k2 == k0) = false := by simpa using hne
      simp [objSet, List.lookup, h2]
    · by_cases h2 : (k2 == k0) = true
      · simp [objSet, h, List.lookup, h2]
      · simp only [Bool.not_eq_true] at h h2
        simp [objSet, h, List.lookup, h2, ih]

/-- Assigning fields that do not contain a key leaves its lookup unchanged. -/
theorem lookup_objAssign_of_none (k : String) :
    ∀ (fields acc : List (String × Json)), fields.lookup k = none →
      (objAssign acc fields).lookup k = acc.lookup k := by
  intro fields
  induction fields with
  | nil => intro acc _; rfl
  | cons hd tl ih =>
    intro acc hnone
    rcases hd with ⟨k1, v1⟩
    have h1 : (k == k1) = false := by
      cases hbe : (k == k1) with
      | false => rfl
      | true => simp [List.lookup, hbe] at hnone
    have h2 : tl.lookup k = none := by
      simpa [List.lookup, h1] using hnone
    have hne : k ≠ k1 := by simpa using h1
    simp only [objAssign]
    rw [ih (objSet acc k1 v1) h2, lookup_objSet_ne k k1 hne v1 acc]

/-- When the execution result has no `type` field of its own, the response
message keeps type `response`. -/
theorem msgTypeOf_responseMsg (r : Json) (ts : String)
    (h : (spreadFields r).lookup "type" = none) :
    msgTypeOf (responseMsg r ts) = some (Json.str "response") := by
  simp only [responseMsg, msgTypeOf]
  rw [lookup_objAssign_of_none "type" [("timestamp", Json.str ts)] _ (by simp [List.lookup])]
  rw [lookup_objAssign_of_none "type" (spreadFields r) _ h]
  simp [List.lookup, objSet]

end ClaudePod

namespace ClaudePod

/-- Digit characters never equal the dash character (code point 45). -/
theorem digitChar_ne_dash (d : Nat) (hd : d < 10) : digitChar d ≠ Char.ofNat 45 := by
  interval_cases d <;> decide

/-- Every character of the fuelled digit rendering is a decimal digit. -/
theorem mem_decDigitsAux :
    ∀ (fuel n : Nat) (c : Char), c ∈ decDigitsAux fuel n → ∃ d, d < 10 ∧ c = digitChar d := by
  intro fuel
  induction fuel with
  | zero => intro n c hc; simp [decDigitsAux] at hc
  | succ f ih =>
    intro n c hc
    cases n with
    | zero => simp [decDigitsAux] at hc
    | succ m =>
      simp only [decDigitsAux, List.mem_append, List.mem_singleton] at hc
      rcases hc with h | h
      · exact ih _ c h
      · exact ⟨(m + 1) % 10, Nat.mod_lt _ (by norm_num), h⟩

/-- The decimal rendering of a natural number contains no dash. -/
theorem dash_not_mem_natToDec (n : Nat) : Char.ofNat 45 ∉ (natToDec n).data := by
  intro hmem
  by_cases h : n = 0
  · subst h
    simp [natToDec] at hmem
  · simp only [natToDec, if_neg h] at hmem
    obtain ⟨d, hd, hc⟩ := mem_decDigitsAux n n _ hmem
    exact digitChar_ne_dash d hd hc.symm

/-- Reading back after appending one digit. -/
theorem ofDec_append_digit (xs : List Char) (c : Char) :
    ofDec (xs ++ [c]) = 10 * ofDec xs + (c.toNat - 48) := by
  simp [ofDec, List.foldl_append]

/-- Numeric value of a digit character. -/
theorem toNat_digitChar (d : Nat) (hd : d < 10) : (digitChar d).toNat - 48 = d := by
  interval_cases d <;> decide

/-- With enough fuel the digit rendering reads back to the number. -/
theorem ofDec_decDigitsAux : ∀ (fuel n : Nat), n ≤ fuel → ofDec (decDigitsAux fuel n) = n := by
  intro fuel
  induction fuel with
  | zero =>
    intro n hn
    interval_cases n
    rfl
  | succ f ih =>
    intro n hn
    cases n with
    | zero => rfl
    | succ m =>
      have hdiv : (m + 1) / 10 ≤ f := by
        have h1 : (m + 1) / 10 < m + 1 := Nat.div_lt_self (Nat.succ_pos m) (by norm_num)
        omega
      simp only [decDigitsAux]
      rw [ofDec_append_digit, ih _ hdiv, toNat_digitChar _ (Nat.mod_lt _ (by norm_num))]
      exact Nat.div_add_mod (m + 1) 10

/-- The decimal rendering reads back to the number. -/
theorem ofDec_natToDec (n : Nat) : ofDec (natToDec n).data = n := by
  by_cases h : n = 0
  · subst h; rfl
  · simp only [natToDec, if_neg h]
    exact ofDec_decDigitsAux n n le_rfl

/-- The decimal rendering is injective. -/
theorem natToDec_inj {a b : Nat} (h : natToDec a = natToDec b) : a = b := by
  have h2 := congrArg (fun s => ofDec s.data) h
  simpa [ofDec_natToDec] using h2

/-- A dash separator whose right part is dash-free splits a character list
uniquely. -/
theorem sep_inj :
    ∀ (a1 a2 b1 b2 : List Char), Char.ofNat 45 ∉ b1 → Char.ofNat 45 ∉ b2 →
      a1 ++ Char.ofNat 45 :: b1 = a2 ++ Char.ofNat 45 :: b2 → a1 = a2 ∧ b1 = b2 := by
  intro a1
  induction a1 with
  | nil =>
    intro a2 b1 b2 h1 h2 heq
    cases a2 with
    | nil =>
      simp only [List.nil_append] at heq
      injection heq with _ hb
      exact ⟨rfl, hb⟩
    | cons c a2t =>
      simp only [List.nil_append, List.cons_append] at heq
      injection heq with hc hrest
      exfalso
      apply h1
      rw [hrest]
      exact List.mem_append_right _ (List.mem_cons_self _ _)
  | cons c a1t ih =>
    intro a2 b1 b2 h1 h2 heq
    cases a2 with
    | nil =>
      simp only [List.cons_append, List.nil_append] at heq
      injection heq with hc hrest
      exfalso
      apply h2
      rw [← hrest]
      exact List.mem_append_right _ (List.mem_cons_self _ _)
    | cons d a2t =>
      simp only [List.cons_append] at heq
      injection heq with hc hrest
      obtain ⟨ha, hb⟩ := ih a2t b1 b2 h1 h2 hrest
      exact ⟨by rw [hc, ha], hb⟩

/-- String concatenation concatenates the character data. -/
theorem string_data_append (a b : String) : (a ++ b).data = a.data ++ b.data := rfl

/-- The global single-character replace equals its character-wise
specification. -/
theorem replaceAllChar_eq_flatMap (pat : Char) (repl : List Char) :
    ∀ l : List Char, replaceAllChar pat repl l =
      l.flatMap fun c => if c = pat then repl else [c] := by
  intro l
  induction l with
  | nil => rfl
  | cons c cs ih => simp [replaceAllChar, ih]

/-- C1 (counterexample): at the concrete scenario where `devpod list` throws
with message `boom`, `getWorkspaceStatus` returns the value
obj [status error, error boom], which is not the claimed fixed failure shape
obj [success false, error boom] — the status operation has no `success`
field at all. -/
theorem c1_counterexample :
    (getWorkspaceStatus envDevpodBoom "w").1 =
        Json.obj [("status", Json.str "error"), ("error", Json.str "boom")] ∧
    (getWorkspaceStatus envDevpodBoom "w").1 ≠
        Json.obj [("success", Json.bool false), ("error", Json.str "boom")] := by
  constructor
  · rfl
  · intro h
    have h2 : Json.obj [("status", Json.str "error"), ("error", Json.str "boom")] =
        Json.obj [("success", Json.bool false), ("error", Json.str "boom")] := h
    simp at h2

/-- C1 (amended): whenever the wrapped body of any of the five manager
operations throws with message `e`, the operation does not propagate the
throw but returns its documented failure value carrying that message:
obj [success false, error e] for createWorkspace, stopWorkspace and
deleteWorkspace; the same plus a fixed `response` string for
executeInWorkspace; and obj [status error, error e] for getWorkspaceStatus. -/
theorem c1_failure_shapes :
    ∀ (env : Env) (wid repoUrl : String) (widJ msgJ : Json) (e : String),
      ((createBody env wid repoUrl).1 = .error e →
        (createWorkspace env wid repoUrl).1 =
          Json.obj [("success", .bool false), ("error", .str e)]) ∧
      ((executeBody env widJ msgJ).1 = .error e →
        (executeInWorkspace env widJ msgJ).1 =
          Json.obj [("success", .bool false), ("error", .str e),
            ("response", .str "I encountered an error processing your request.")]) ∧
      ((statusBody env wid).1 = .error e →
        (getWorkspaceStatus env wid).1 =
          Json.obj [("status", .str "error"), ("error", .str e)]) ∧
      ((stopBody env wid).1 = .error e →
        (stopWorkspace env wid).1 =
          Json.obj [("success", .bool false), ("error", .str e)]) ∧
      ((deleteBody env wid).1 = .error e →
        (deleteWorkspace env wid).1 =
          Json.obj [("success", .bool false), ("error", .str e)]) := by
  intro env wid repoUrl widJ msgJ e
  refine ⟨?_, ?_, ?_, ?_, ?_⟩
  · intro h
    show (match (createBody env wid repoUrl).1 with
      | Except.ok v => v
      | Except.error err => Json.obj [("success", Json.bool false), ("error", Json.str err)]) =
      Json.obj [("success", Json.bool false), ("error", Json.str e)]
    rw [h]
  · intro h
    show (match (executeBody env widJ msgJ).1 with
      | Except.ok v => v
      | Except.error err => Json.obj [("success", Json.bool false), ("error", Json.str err),
          ("response", Json.str "I encountered an error processing your request.")]) =
      Json.obj [("success", Json.bool false), ("error", Json.str e),
        ("response", Json.str "I encountered an error processing your request.")]
    rw [h]
  · intro h
    show (match (statusBody env wid).1 with
      | Except.ok v => v
      | Except.error err => Json.obj [("status", Json.str "error"), ("error", Json.str err)]) =
      Json.obj [("status", Json.str "error"), ("error", Json.str e)]
    rw [h]
  · intro h
    show (match (stopBody env wid).1 with
      | Except.ok v => v
      | Except.error err => Json.obj [("success", Json.bool false), ("error", Json.str err)]) =
      Json.obj [("success", Json.bool false), ("error", Json.str e)]
    rw [h]
  · intro h
    show (match (deleteBody env wid).1 with
      | Except.ok v => v
      | Except.error err => Json.obj [("success", Json.bool false), ("error", Json.str err)]) =
      Json.obj [("success", Json.bool false), ("error", Json.str e)]
    rw [h]

/-- C1 (witness): in the scenario where every strategy call throws `boom`,
all five operations evaluate to their documented failure values. -/
theorem c1_failure_shapes_witness :
    (createWorkspace envDevpodBoom "w" "r").1 =
        Json.obj [("success", .bool false), ("error", .str "boom")] ∧
    (executeInWorkspace envDevpodBoom (.str "w") (.str "m")).1 =
        Json.obj [("success", .bool false), ("error", .str "boom"),
          ("response", .str "I encountered an error processing your request.")] ∧
    (getWorkspaceStatus envDevpodBoom "w").1 =
        Json.obj [("status", .str "error"), ("error", .str "boom")] ∧
    (stopWorkspace envDevpodBoom "w").1 =
        Json.obj [("success", .bool false), ("error", .str "boom")] ∧
    (deleteWorkspace envDevpodBoom "w").1 =
        Json.obj [("success", .bool false), ("error", .str "boom")] := by
  have h := c1_failure_shapes envDevpodBoom "w" "r" (.str "w") (.str "m") "boom"
  exact ⟨h.1 rfl, h.2.1 rfl, h.2.2.1 rfl, h.2.2.2.1 rfl, h.2.2.2.2 rfl⟩

/-- C2 (counterexample): in DevPod mode a chat turn makes two subprocess
invocations (the `which devpod` probe and the `devpod ssh` call) and no HTTP
call, so it is false that exactly one subprocess invocation or exactly one
HTTP call is made. -/
theorem c2_counterexample :
    countExec (executeInWorkspace envDevpodBoom (.str "w") (.str "hello")).2 = 2 ∧
    countHttp (executeInWorkspace envDevpodBoom (.str "w") (.str "hello")).2 = 0 ∧
    ¬ ((countExec (executeInWorkspace envDevpodBoom (.str "w") (.str "hello")).2 = 1 ∧
          countHttp (executeInWorkspace envDevpodBoom (.str "w") (.str "hello")).2 = 0) ∨
        (countHttp (executeInWorkspace envDevpodBoom (.str "w") (.str "hello")).2 = 1 ∧
          countExec (executeInWorkspace envDevpodBoom (.str "w") (.str "hello")).2 = 0)) := by
  refine ⟨rfl, rfl, ?_⟩
  intro h
  rcases h with ⟨h1, _⟩ | ⟨h1, _⟩
  · have h2 : (2 : Nat) = 1 := h1
    simp at h2
  · have h2 : (0 : Nat) = 1 := h1
    simp at h2

/-- C2 (amended): every chat turn — one call to `executeInWorkspace` with a
workspace identifier and a message string — makes exactly two outbound calls
in order: the `which devpod` availability probe, then exactly one strategy
call, namely the `devpod ssh` subprocess in DevPod mode or one HTTP POST to
the Anthropic endpoint in fallback mode; the response is computed only after
that trace is complete. -/
theorem c2_chat_turn_calls :
    ∀ (env : Env) (wid m : String),
      (executeInWorkspace env (.str wid) (.str m)).2 =
        if devpodAvailable env then
          [ExtCall.exec "which devpod", ExtCall.exec (sshCommand (.str wid) m)]
        else
          [ExtCall.exec "which devpod", ExtCall.http anthropicUrl] := by
  intro env wid m
  by_cases h : devpodAvailable env <;>
    simp [executeInWorkspace, executeBody, directApi, h]

/-- C3 (counterexample): a client message that fails to parse makes the
server send a message of type `error`, which is none of `connected`,
`typing`, `response`. -/
theorem c3_counterexample :
    (handleMessage envWs initRelay 1 "oops").2.1 =
      [(1, Json.obj [("type", Json.str "error"), ("error", Json.str "bad json")])] ∧
    ¬ (msgTypeOf (Json.obj [("type", Json.str "error"), ("error", Json.str "bad json")]) =
          some (Json.str "connected") ∨
        msgTypeOf (Json.obj [("type", Json.str "error"), ("error", Json.str "bad json")]) =
          some (Json.str "typing") ∨
        msgTypeOf (Json.obj [("type", Json.str "error"), ("error", Json.str "bad json")]) =
          some (Json.str "response")) := by
  constructor
  · rfl
  · intro h
    rcases h with h | h | h <;> simp [msgTypeOf, List.lookup] at h

/-- C3 (amended): provided the workspace execution result carries no `type`
field of its own (the response message spreads the result over the
type-response default, so a DevPod-mode result could override it), every
message the server sends back has type `connected`, `typing`, `response`, or
`error`. -/
theorem c3_message_types :
    ∀ (env : Env) (st : RelayState) (s : Nat) (data : String),
      (∀ wid msg : Json, (spreadFields (executeInWorkspace env wid msg).1).lookup "type" = none) →
      ∀ p ∈ (handleMessage env st s data).2.1,
        msgTypeOf p.2 = some (.str "connected") ∨ msgTypeOf p.2 = some (.str "typing") ∨
        msgTypeOf p.2 = some (.str "response") ∨ msgTypeOf p.2 = some (.str "error") := by
  intro env st s data H p hp
  cases hJ : env.parse data with
  | error e =>
    simp only [handleMessage, hJ, List.mem_singleton] at hp
    subst hp
    right; right; right; simp [msgTypeOf, List.lookup]
  | ok v =>
    cases hd : destruct3 v with
    | error e =>
      simp only [handleMessage, hJ, hd, List.mem_singleton] at hp
      subst hp
      right; right; right; simp [msgTypeOf, List.lookup]
    | ok triple =>
      rcases triple with ⟨ty, wid, msg⟩
      by_cases hi : ty.isStr "init" = true
      · by_cases hc : (ty.isStr "chat" && jsTruthy wid && jsTruthy msg) = true
        · simp [handleMessage, hJ, hd, hi, hc] at hp
          rcases hp with h | h | h | h
          · left; simp [h, msgTypeOf, List.lookup]
          · right; left; simp [h, msgTypeOf, List.lookup]
          · right; right; left
            rw [show p = (s, responseMsg (executeInWorkspace env wid msg).1 env.now) from h]
            exact msgTypeOf_responseMsg _ _ (H wid msg)
          · right; left; simp [h, msgTypeOf, List.lookup]
        · simp [handleMessage, hJ, hd, hi, hc] at hp
          left; simp [hp, msgTypeOf, List.lookup]
      · by_cases hc : (ty.isStr "chat" && jsTruthy wid && jsTruthy msg) = true
        · simp [handleMessage, hJ, hd, hi, hc] at hp
          rcases hp with h | h | h
          · right; left; simp [h, msgTypeOf, List.lookup]
          · right; right; left
            rw [show p = (s, responseMsg (executeInWorkspace env wid msg).1 env.now) from h]
            exact msgTypeOf_responseMsg _ _ (H wid msg)
          · right; left; simp [h, msgTypeOf, List.lookup]
        · simp [handleMessage, hJ, hd, hi, hc] at hp

/-- C3 (witness): in the fallback scenario, where every execution result is
the fixed failure object without a `type` field, the typing message sent for
a chat turn has one of the four allowed types. -/
theorem c3_message_types_witness :
    msgTypeOf (Json.obj [("type", Json.str "typing"), ("status", Json.bool true)]) =
        some (Json.str "connected") ∨
    msgTypeOf (Json.obj [("type", Json.str "typing"), ("status", Json.bool true)]) =
        some (Json.str "typing") ∨
    msgTypeOf (Json.obj [("type", Json.str "typing"), ("status", Json.bool true)]) =
        some (Json.str "response") ∨
    msgTypeOf (Json.obj [("type", Json.str "typing"), ("status", Json.bool true)]) =
        some (Json.str "error") :=
  c3_message_types envWs initRelay 1 "chat1" (fun _ _ => rfl)
    (1, Json.obj [("type", Json.str "typing"), ("status", Json.bool true)])
    (List.mem_cons_self _ _)

end ClaudePod

namespace ClaudePod

/-- C4 (counterexample): after socket 1 sends `init` for `w1`, then `init`
for `w2`, and then closes, the close handler deletes only the most recent
key `w2`, so the closed socket still owns the stale entry for `w1` — its
entry is not removed from the table when the socket closes. -/
theorem c4_counterexample :
    (runEvents envWs [.msg 1 "init1", .msg 1 "init2", .close 1]).table = [(Json.str "w1", 1)] ∧
    ¬ (∀ p ∈ (runEvents envWs [.msg 1 "init1", .msg 1 "init2", .close 1]).table, p.2 ≠ 1) := by
  constructor
  · rfl
  · intro h
    exact h (Json.str "w1", 1) (List.mem_singleton_self _) rfl

/-- C4 (amended): at every state reachable by any sequence of messages and
closes, the connection table maps each workspace identifier to at most one
socket (no two entries have equal keys); and when a socket closes, the key
equal to its most recent truthy `init` identifier is deleted from the table
(entries left under earlier `init` identifiers of the same socket may
remain, as the counterexample shows). -/
theorem c4_table_invariant :
    (∀ (env : Env) (events : List WsEvent), KeysOk (runEvents env events).table) ∧
    (∀ (env : Env) (events : List WsEvent) (s : Nat),
      jsTruthy (cwidOf (runEvents env events) s) = true →
      lookupBy jsKeyEq (handleClose (runEvents env events) s).table
        (cwidOf (runEvents env events) s) = none) := by
  constructor
  · exact fun env events => keysOk_runEvents env events
  · intro env events s ht
    simp only [handleClose, ht, if_true]
    exact lookupBy_mapDeleteBy _ (keysOk_runEvents env events)

/-- C4 (witness): after one `init` on socket 1, the table keys are distinct
and closing socket 1 removes its identifier from the table. -/
theorem c4_table_invariant_witness :
    KeysOk (runEvents envWs [.msg 1 "init1"]).table ∧
    lookupBy jsKeyEq (handleClose (runEvents envWs [.msg 1 "init1"]) 1).table
      (cwidOf (runEvents envWs [.msg 1 "init1"]) 1) = none :=
  ⟨c4_table_invariant.1 envWs [.msg 1 "init1"],
   c4_table_invariant.2 envWs [.msg 1 "init1"] 1 rfl⟩

/-- C5: a message produced while handling an incoming client message on one
socket is never delivered on a distinct socket — all replies, including chat
responses, target the socket the message arrived on. -/
theorem c5_no_cross_delivery :
    ∀ (env : Env) (st : RelayState) (s1 s2 : Nat) (data : String) (p : Send),
      s1 ≠ s2 → p ∈ (handleMessage env st s1 data).2.1 → p.1 ≠ s2 := by
  intro env st s1 s2 data p hne hp
  rw [sends_target env st s1 data p hp]
  exact hne

/-- C5 (witness): the reply sent while handling a message on socket 1 is not
delivered on socket 2. -/
theorem c5_no_cross_delivery_witness :
    ((1 : Nat), Json.obj [("type", Json.str "error"), ("error", Json.str "bad json")]).1 ≠ 2 :=
  c5_no_cross_delivery envWs initRelay 1 2 "oops" _ (by decide) (List.mem_singleton_self _)

/-- C6: a WebSocket `init` message carrying a workspace id string makes the
server reply, on the same socket, with exactly one message of type
`connected` carrying that same workspace id. -/
theorem c6_init_connected :
    ∀ (env : Env) (st : RelayState) (s : Nat) (data : String) (v : Json) (w : String),
      env.parse data = .ok v →
      v.getProp "type" = .ok (.str "init") →
      v.getProp "workspaceId" = .ok (.str w) →
      (handleMessage env st s data).2.1 =
        [(s, Json.obj [("type", .str "connected"), ("workspaceId", .str w)])] := by
  intro env st s data v w hJ hty hw
  cases v with
  | null => simp [Json.getProp] at hty
  | undef => simp [Json.getProp] at hty
  | bool b => simp [Json.getProp] at hty
  | num n => simp [Json.getProp] at hty
  | str t => simp [Json.getProp] at hty
  | arr xs => simp [Json.getProp] at hty
  | obj fs =>
    simp only [Json.getProp, Except.ok.injEq] at hty hw
    simp [handleMessage, hJ, destruct3, Json.getProp, hty, hw, Json.isStr]

/-- C6 (witness): the `init` for `w1` on socket 1 is answered by the
`connected` message for `w1` on socket 1. -/
theorem c6_init_connected_witness :
    (handleMessage envWs initRelay 1 "init1").2.1 =
      [(1, Json.obj [("type", .str "connected"), ("workspaceId", .str "w1")])] :=
  c6_init_connected envWs initRelay 1 "init1"
    (Json.obj [("type", .str "init"), ("workspaceId", .str "w1")]) "w1" rfl rfl rfl

/-- C7: a chat POST whose body has a missing or empty `message` field is
rejected with status 400 and body obj [success false, error message-is-
required], and no outbound call is made. -/
theorem c7_empty_message_rejected :
    ∀ (env : Env) (wid : String) (fs : List (String × Json)),
      (fs.lookup "message" = none ∨ fs.lookup "message" = some (.str "")) →
      chatRoute env wid (.obj fs) =
        (400, Json.obj [("success", .bool false), ("error", .str "message is required")], []) := by
  intro env wid fs h
  rcases h with h | h <;> simp [chatRoute, Json.getProp, h, jsTruthy]

/-- C7 (witness): a chat POST with an empty body object is rejected with 400
and an empty outbound-call trace. -/
theorem c7_empty_message_rejected_witness :
    chatRoute envWs "w1" (.obj []) =
      (400, Json.obj [("success", .bool false), ("error", .str "message is required")], []) :=
  c7_empty_message_rejected envWs "w1" [] (Or.inl rfl)

/-- C8 (counterexample): two distinct creation requests by the same user in
the same millisecond produce the same workspace identifier, so identifiers
of distinct requests are not always distinct. -/
theorem c8_counterexample :
    ¬ List.Pairwise (fun a b => a ≠ b) (genIds [("alice", 5), ("alice", 5)]) := by
  intro h
  exact (List.pairwise_cons.mp h).1 _ (List.mem_singleton_self _) rfl

/-- C8 (amended): the generated identifier is exactly the string
workspace-u-t for user id u and timestamp t, and two creation requests get
distinct identifiers whenever they differ in user id or in timestamp — the
decimal timestamp suffix contains no dash, so the identifier determines both
components; only two requests by the same user in the same millisecond
collide. -/
theorem c8_gen_id :
    ∀ (u1 u2 : String) (t1 t2 : Nat),
      genWorkspaceId (.str u1) t1 = "workspace-" ++ u1 ++ "-" ++ natToDec t1 ∧
      (genWorkspaceId (.str u1) t1 = genWorkspaceId (.str u2) t2 → u1 = u2 ∧ t1 = t2) := by
  intro u1 u2 t1 t2
  constructor
  · rfl
  · intro h
    have hdata := congrArg String.data h
    simp only [genWorkspaceId, jsToString, string_data_append, List.append_assoc,
      List.singleton_append] at hdata
    simp only [← List.append_assoc] at hdata
    have hdata2 : (("workspace-").data ++ u1.data) ++ Char.ofNat 45 :: (natToDec t1).data =
        (("workspace-").data ++ u2.data) ++ Char.ofNat 45 :: (natToDec t2).data := hdata
    obtain ⟨hu, ht⟩ :=
      sep_inj _ _ _ _ (dash_not_mem_natToDec t1) (dash_not_mem_natToDec t2) hdata2
    have hu2 : u1 = u2 := congrArg String.mk (List.append_cancel_left hu)
    have ht2 : t1 = t2 := natToDec_inj (congrArg String.mk ht)
    exact ⟨hu2, ht2⟩

/-- C8 (witness): the format equation at concrete inputs, and injectivity
applied at a concrete coincidence. -/
theorem c8_gen_id_witness :
    genWorkspaceId (.str "a") 1 = "workspace-" ++ "a" ++ "-" ++ natToDec 1 ∧
    ("a" = "a" ∧ (7 : Nat) = 7) :=
  ⟨(c8_gen_id "a" "a" 1 1).1, (c8_gen_id "a" "a" 7 7).2 rfl⟩

/-- C9: in DevPod mode with a string message, the chat turn executes exactly
the probe and then a `devpod ssh` command in which the workspace identifier
is interpolated verbatim with no escaping, while the message appears between
single quotes with every single-quote character replaced by the four-
character sequence quote backslash quote quote. -/
theorem c9_command_escaping :
    ∀ (env : Env) (wid m : String),
      devpodAvailable env = true →
      (executeInWorkspace env (.str wid) (.str m)).2 =
        [ExtCall.exec "which devpod",
         ExtCall.exec ("devpod ssh " ++ wid ++
           " --command \"cd /workspace && python3 .devcontainer/claude-handler.py " ++
           String.mk [squote] ++
           String.mk (m.data.flatMap fun c =>
             if c = squote then [squote, bslash, squote, squote] else [c]) ++
           String.mk [squote] ++ "\"")] := by
  intro env wid m h
  have hesc : escapedOf m = String.mk (m.data.flatMap fun c =>
      if c = squote then [squote, bslash, squote, squote] else [c]) := by
    unfold escapedOf
    rw [replaceAllChar_eq_flatMap]
  simp [executeInWorkspace, executeBody, h, sshCommand, jsToString, hesc]

/-- C9 (witness): the DevPod-mode trace for a concrete workspace id and
message, with the escaped message spelled by the character-wise
specification. -/
theorem c9_command_escaping_witness :
    (executeInWorkspace envDevpodBoom (.str "w1") (.str "ab")).2 =
      [ExtCall.exec "which devpod",
       ExtCall.exec ("devpod ssh " ++ "w1" ++
         " --command \"cd /workspace && python3 .devcontainer/claude-handler.py " ++
         String.mk [squote] ++
         String.mk ("ab".data.flatMap fun c =>
           if c = squote then [squote, bslash, squote, squote] else [c]) ++
         String.mk [squote] ++ "\"")] :=
  c9_command_escaping envDevpodBoom "w1" "ab" rfl

/-- C10: a WebSocket `chat` message whose workspace id or message field is
empty or missing produces no reply of any kind on the socket, makes no
outbound call, and leaves the relay state unchanged. -/
theorem c10_empty_chat_silent :
    ∀ (env : Env) (st : RelayState) (s : Nat) (data : String) (v ty wid msg : Json),
      env.parse data = .ok v →
      destruct3 v = .ok (ty, wid, msg) →
      ty = .str "chat" →
      (wid = .str "" ∨ wid = .undef ∨ msg = .str "" ∨ msg = .undef) →
      (handleMessage env st s data).2.1 = [] ∧ (handleMessage env st s data).2.2 = [] ∧
        (handleMessage env st s data).1 = st := by
  intro env st s data v ty wid msg hJ hd hty hfalsy
  subst hty
  have hi : (Json.str "chat").isStr "init" = false := by simp [Json.isStr]
  have hc : ((Json.str "chat").isStr "chat" && jsTruthy wid && jsTruthy msg) = false := by
    rcases hfalsy with h | h | h | h <;> subst h <;> simp [Json.isStr, jsTruthy]
  refine ⟨?_, ?_, ?_⟩ <;> simp [handleMessage, hJ, hd, hi, hc]

/-- C10 (witness): the chat message with an empty `message` field gets no
reply, no outbound call, and no state change. -/
theorem c10_empty_chat_silent_witness :
    (handleMessage envWs initRelay 1 "chatEmpty").2.1 = [] ∧
    (handleMessage envWs initRelay 1 "chatEmpty").2.2 = [] ∧
    (handleMessage envWs initRelay 1 "chatEmpty").1 = initRelay :=
  c10_empty_chat_silent envWs initRelay 1 "chatEmpty" _ _ _ _ rfl rfl rfl
    (Or.inr (Or.inr (Or.inl rfl)))

end ClaudePod
